import Mathlib

set_option maxRecDepth 10000

/-!
Verification of the GitHub notification service (`pkg/services/github.go`)
of the notifications-engine repository, against its natural-language
specification.  Pure Go functions are embedded as Lean functions; the
in-place mutation performed by the template executor is embedded as
explicit state passing (the executor returns the final notification value
together with an optional error); a Go run-time panic is modelled by a
dedicated result (`Option.none` for `fullNameByRepoURL`, `SendOutcome.fault`
for `Send`).
-/

namespace NotificationsEngine

/-! ## String utilities mirroring the Go standard library -/

/-- Go `strings.Split` with a one-character separator, on lists of
characters: splits around each occurrence of `sep`; the result is never
empty (`splitOnChar sep [] = [[]]`, matching Go `strings.Split("", sep) = [""]`). -/
def splitOnChar (sep : Char) : List Char → List (List Char)
  | [] => [[]]
  | c :: cs =>
    match splitOnChar sep cs with
    | [] => [[]]
    | h :: t => if c = sep then [] :: h :: t else (c :: h) :: t

/-- Go `strings.Split(s, sep)` for a one-character separator. -/
def goSplit (s : String) (sep : Char) : List String :=
  (splitOnChar sep s.data).map String.mk

/-- Split a character list at the first occurrence of the pattern `pat`,
returning the part before and the part after, or `none` when the pattern
does not occur. -/
def splitOnFirstSubstr (pat : List Char) : List Char → Option (List Char × List Char)
  | [] => none
  | c :: cs =>
    if pat.isPrefixOf (c :: cs) then some ([], (c :: cs).drop pat.length)
    else
      match splitOnFirstSubstr pat cs with
      | some (pre, post) => some (c :: pre, post)
      | none => none

/-- Join character lists with a one-character separator. -/
def joinWithChar (sep : Char) : List (List Char) → List Char
  | [] => []
  | [x] => x
  | x :: y :: t => x ++ sep :: joinWithChar sep (y :: t)

/-! ## `trunc` (github.go lines 156-161)

Go counts `utf8.RuneCountInString`, i.e. Unicode code points; a Lean
`String` is a list of code points, so `String.length` is the same count. -/

/-- `trunc` from github.go: if the code-point count of `message` exceeds
`n`, keep the first `n - 3` code points and append `"..."`. -/
def trunc (message : String) (n : Nat) : String :=
  if message.length > n then String.mk (message.data.take (n - 3)) ++ "..."
  else message

theorem trunc_data_of_gt {m : String} {n : Nat} (h : n < m.length) :
    (trunc m n).data = m.data.take (n - 3) ++ ['.', '.', '.'] := by
  simp only [trunc, gt_iff_lt, if_pos h]
  rfl

theorem trunc_length_of_gt {m : String} (h : 140 < m.length) :
    (trunc m 140).length = 140 := by
  have hd := trunc_data_of_gt h
  have hm : 140 < m.data.length := h
  show (trunc m 140).data.length = 140
  rw [hd]
  simp [List.length_take]
  omega

/-- C4: `trunc(message, 140)` returns the message unchanged when its
code-point count is at most 140, and otherwise returns exactly the first
137 code points followed by the three-character ellipsis, so the result
has exactly 140 code points and ends with the ellipsis. -/
theorem trunc_message_truncation (m : String) :
    (m.length ≤ 140 → trunc m 140 = m) ∧
    (140 < m.length →
      trunc m 140 = String.mk (m.data.take 137) ++ "..." ∧
      (trunc m 140).length = 140 ∧
      (trunc m 140).data.drop 137 = ['.', '.', '.']) := by
  constructor
  · intro h
    simp [trunc, Nat.not_lt.mpr h]
  · intro h
    refine ⟨?_, trunc_length_of_gt h, ?_⟩
    · simp only [trunc, gt_iff_lt, if_pos h]
    · have hd := trunc_data_of_gt h
      have hm : 140 < m.data.length := h
      rw [hd]
      have hlen : (m.data.take 137).length = 137 := by
        simp [List.length_take]
        omega
      rw [show (137 : Nat) = (m.data.take 137).length from hlen.symm,
        List.drop_left]

/-- Witness for C4 at concrete inputs: a short message is unchanged; a
200-code-point message is cut to its first 137 code points plus the
ellipsis, has length 140, and ends with the ellipsis. -/
theorem trunc_message_truncation_witness :
    trunc "hello" 140 = "hello" ∧
    trunc (String.mk (List.replicate 200 'a')) 140
      = String.mk (List.replicate 137 'a') ++ "..." ∧
    (trunc (String.mk (List.replicate 200 'a')) 140).length = 140 ∧
    (trunc (String.mk (List.replicate 200 'a')) 140).data.drop 137
      = ['.', '.', '.'] := by
  have h1 := (trunc_message_truncation "hello").1 (by decide)
  have h2 := (trunc_message_truncation (String.mk (List.replicate 200 'a'))).2
    (by decide)
  refine ⟨h1, ?_, h2.2.1, h2.2.2⟩
  rw [h2.1]
  decide

/-- C5: truncation to 140 code points is idempotent. -/
theorem trunc_idempotent_140 (m : String) :
    trunc (trunc m 140) 140 = trunc m 140 := by
  by_cases h : 140 < m.length
  · have hlen := trunc_length_of_gt h
    simp only [trunc, gt_iff_lt] at hlen ⊢
    rw [if_neg]
    intro hcontra
    rw [hlen] at hcontra
    exact lt_irrefl 140 hcontra
  · have hm : ¬ m.length > 140 := h
    simp only [trunc, gt_iff_lt, if_neg hm]

/-! ## Git remote URL parsing and the repository-slug resolver
(github.go lines 163-175) -/

/-- The result of parsing a Git remote URL (the fields of `url.URL` that
github.go uses). -/
structure GitURL where
  Scheme : String
  Host : String
  Path : String
deriving DecidableEq

/-- Modelled from the spec: the Git remote URL parser (the third-party
giturls library, not part of this repository's sources).  Per §4.3 it
supports at minimum transport forms `scheme://host/path` (https, ssh) and
SCP-like `user@host:path`; malformed input that matches neither form is a
parse error.  For a transport URL the path component keeps its leading
slash; for an SCP-like reference the path is everything after the colon,
with no leading slash. -/
def specGitURLParse (rawURL : String) : Except String GitURL :=
  match splitOnFirstSubstr [':', '/', '/'] rawURL.data with
  | some (scheme, rest) =>
    if scheme == [] then .error ("parse " ++ rawURL ++ ": empty scheme")
    else
      match splitOnChar '/' rest with
      | [] => .error ("parse " ++ rawURL)
      | host :: segs =>
        let path := if segs == [] then "" else String.mk ('/' :: joinWithChar '/' segs)
        .ok ⟨String.mk scheme, String.mk host, path⟩
  | none =>
    match splitOnFirstSubstr [':'] rawURL.data with
    | some (userHost, path) =>
      if userHost.any (fun c => c == '@') then
        .ok ⟨"ssh", String.mk userHost, String.mk path⟩
      else .error ("parse " ++ rawURL ++ ": not a git url")
    | none => .error ("parse " ++ rawURL ++ ": not a git url")

/-- The regular expression `gitSuffix = \.git$` applied with
`ReplaceAllString(path, "")`: strip one trailing `".git"`. -/
def stripGitSuffix (path : String) : String :=
  if ".git".data.isSuffixOf path.data then
    String.mk (path.data.take (path.data.length - 4))
  else path

/-- Modelled from the spec: `text.SplitRemoveEmpty` (from pkg/util/text,
not under src/) — "Split the remaining path on `/`, discarding empty
segments" (§4.3). -/
def SplitRemoveEmpty (s : String) (sep : Char) : List String :=
  (goSplit s sep).filter (fun x => !(x == ""))

/-- `fullNameByRepoURL` from github.go, parameterized by the URL parser.
The Go function calls `panic(err)` when the parser fails; the panic is
modelled as `none`.  On success it strips a trailing `".git"`, splits the
path on `/` discarding empty segments, joins the first two segments when
at least two remain, and otherwise returns the (suffix-stripped) path
itself. -/
def fullNameByRepoURL (parse : String → Except String GitURL)
    (rawURL : String) : Option String :=
  match parse rawURL with
  | .error _ => none
  | .ok parsed =>
    let path := stripGitSuffix parsed.Path
    let pathParts := SplitRemoveEmpty path '/'
    if 2 ≤ pathParts.length then
      some (String.intercalate "/" (pathParts.take 2))
    else some path

/-! ## The dispatcher `Send` (github.go lines 177-200) -/

/-- The `github.RepoStatus` fields that `Send` populates (Go string
pointers are embedded as plain strings). -/
structure RepoStatus where
  State : String
  Description : String
  Context : String
  TargetURL : String
deriving DecidableEq

/-- The GitHub payload of a notification (github.go lines 33-39). -/
structure GitHubNotification where
  State : String
  Label : String
  TargetURL : String
  RepoURL : String
  Revision : String
deriving DecidableEq

/-- The outer notification: the fields of `Notification` that github.go
reads or writes (the message, and the optional GitHub payload). -/
structure Notification where
  Message : String
  GitHub : Option GitHubNotification
deriving DecidableEq

/-- Outcome of a `Send` call: a normal return (`ok`), an error value
returned to the caller (`err`), or a Go run-time panic (`fault`). -/
inductive SendOutcome where
  | ok
  | err (e : String)
  | fault (msg : String)
deriving DecidableEq

/-- `gitHubService.Send` from github.go, parameterized by the URL parser
and by the `client.Repositories.CreateStatus` call (which returns `some e`
for an API error and `none` on success).  The Go code returns an error
when the payload is missing, and otherwise evaluates
`strings.Split(fullNameByRepoURL(RepoURL), "/")` and indexes `u[0]` and
`u[1]` unconditionally: a parser failure panics inside
`fullNameByRepoURL`, and a split result with fewer than two elements
panics with an index-out-of-range fault. -/
def Send (parse : String → Except String GitURL)
    (createStatus : String → String → String → RepoStatus → Option String)
    (notification : Notification) : SendOutcome :=
  match notification.GitHub with
  | none => .err "config is empty"
  | some gh =>
    match fullNameByRepoURL parse gh.RepoURL with
    | none => .fault "giturls parse failure"
    | some fullName =>
      let u := goSplit fullName '/'
      let description := trunc notification.Message 140
      match u with
      | owner :: repo :: _ =>
        match createStatus owner repo gh.Revision
            ⟨gh.State, description, gh.Label, gh.TargetURL⟩ with
        | some e => .err e
        | none => .ok
      | _ => .fault "index out of range"

/-- C1 (code bug): the claim says `Send` returns an error when the
resolved slug has fewer than two path segments and issues the
status-update call only when exactly two segments are obtained.  The code
instead splits `fullNameByRepoURL`'s result and indexes `u[0]`, `u[1]`
unconditionally.  Concretely: for the SCP-like one-segment URL
`git@github.com:owner` the slug is `owner`, the split has one element and
`u[1]` is an index-out-of-range run-time fault, not a returned error; and
for `https://github.com/owner` the resolver returns the raw path
`/owner`, whose split is `["", "owner"]`, so the status-update call IS
issued (with an empty owner) although fewer than two segments were
resolved — the second `Send` below records the owner/repo arguments it
was called with inside the error it returns. -/
theorem send_faults_on_short_slug :
    Send specGitURLParse (fun _ _ _ _ => none)
      { Message := "m",
        GitHub := some ⟨"success", "ci", "http://x", "git@github.com:owner", "abc"⟩ }
      = .fault "index out of range" ∧
    Send specGitURLParse (fun owner repo _ _ => some (owner ++ "|" ++ repo))
      { Message := "m",
        GitHub := some ⟨"success", "ci", "http://x", "https://github.com/owner", "abc"⟩ }
      = .err "|owner" := ⟨rfl, rfl⟩

/-- C2 (code bug): the claim says the resolver yields an explicit,
recoverable error to its caller for every unparseable input.  The code
instead calls `panic(err)` when the parser fails (modelled as `none`): on
the unparseable input `"not a remote url"` the parser errors and
`fullNameByRepoURL` faults rather than returning an error value. -/
theorem fullNameByRepoURL_faults_on_unparseable :
    specGitURLParse "not a remote url"
      = .error "parse not a remote url: not a git url" ∧
    fullNameByRepoURL specGitURLParse "not a remote url" = none := ⟨rfl, rfl⟩

/-- C8: the resolver maps `https://github.com/owner/repo.git` and
`git@github.com:owner/repo.git` to `owner/repo` (stripping a trailing
`.git`, splitting on `/` discarding empty segments, joining the first two
segments when at least two remain), and on the one-segment URL
`https://github.com/owner` it returns a defined result (the raw path
`/owner`) without crashing. -/
theorem fullNameByRepoURL_slugs :
    fullNameByRepoURL specGitURLParse "https://github.com/owner/repo.git"
      = some "owner/repo" ∧
    fullNameByRepoURL specGitURLParse "git@github.com:owner/repo.git"
      = some "owner/repo" ∧
    (fullNameByRepoURL specGitURLParse "https://github.com/owner").isSome
      = true := ⟨rfl, rfl, rfl⟩

/-! ## Template compilation and execution (github.go lines 41-117)

The Go code uses `text/template`, which the spec treats as an external
black box (§1).  `GetTemplater` is therefore parameterized by an abstract
engine providing `parse` (taking the template name and text, as
`texttemplate.New(name).Funcs(f).Parse(text)` does — the function map is
part of the engine instance) and `exec` (running a compiled template
against a variable context, producing a string or an execution error). -/

/-- An abstract templating engine: `Tmpl` is the type of compiled
templates, `Ctx` the type of variable contexts, `ε` the engine's error
type. -/
structure Engine (Tmpl Ctx ε : Type) where
  parse : String → String → Except ε Tmpl
  exec : Tmpl → Ctx → Except ε String

/-- github.go line 42. -/
def defaultRepoURLtemplate : String := "\x7b\x7b.app.spec.source.repoURL\x7d\x7d"

/-- github.go line 43. -/
def defaultRevisionTemplate : String :=
  "\x7b\x7b.app.status.operationState.syncResult.revision\x7d\x7d"

/-- The template text compiled for the repoURL field (github.go lines
48-51): the default unless `g.RepoURL` is non-empty. -/
def repoURLtemplate (g : GitHubNotification) : String :=
  if g.RepoURL ≠ "" then g.RepoURL else defaultRepoURLtemplate

/-- The template text compiled for the revision field (github.go lines
57-60): the default unless `g.Revision` is non-empty. -/
def revisionTemplate (g : GitHubNotification) : String :=
  if g.Revision ≠ "" then g.Revision else defaultRevisionTemplate

/-- The payload the executor writes into: the existing payload when the
notification already carries one, and a freshly allocated empty payload
otherwise (github.go lines 82-84). -/
def payloadOf (n : Notification) : GitHubNotification :=
  match n.GitHub with
  | none => ⟨"", "", "", "", ""⟩
  | some gh => gh

/-- The executor closure returned by `GetTemplater` (github.go lines
81-117).  The Go closure mutates the notification through a pointer and
returns only an error; here it returns the final notification value
together with the optional error, so the state left behind by a
mid-sequence failure is observable.  Each of the five templates is
executed in order repoURL, revision, state, label, targetURL; a failure
returns immediately, keeping every field already written. -/
def templaterRun {Tmpl Ctx ε : Type} (E : Engine Tmpl Ctx ε)
    (repoURL revision state label targetURL : Tmpl)
    (notification : Notification) (vars : Ctx) : Notification × Option ε :=
  let gh0 := payloadOf notification
  match E.exec repoURL vars with
  | .error e => ({ notification with GitHub := some gh0 }, some e)
  | .ok repoData =>
    let gh1 := { gh0 with RepoURL := repoData }
    match E.exec revision vars with
    | .error e => ({ notification with GitHub := some gh1 }, some e)
    | .ok revisionData =>
      let gh2 := { gh1 with Revision := revisionData }
      match E.exec state vars with
      | .error e => ({ notification with GitHub := some gh2 }, some e)
      | .ok stateData =>
        let gh3 := { gh2 with State := stateData }
        match E.exec label vars with
        | .error e => ({ notification with GitHub := some gh3 }, some e)
        | .ok labelData =>
          let gh4 := { gh3 with Label := labelData }
          match E.exec targetURL vars with
          | .error e => ({ notification with GitHub := some gh4 }, some e)
          | .ok targetData =>
            ({ notification with GitHub := some { gh4 with TargetURL := targetData } },
              none)

/-- `GitHubNotification.GetTemplater` (github.go lines 46-117): compile
the five field templates in the order repoURL, revision, state, label,
targetURL, substituting the documented defaults for an empty `RepoURL` or
`Revision`; the first parse failure is returned immediately and no
executor is produced.  On success the executor closure is returned. -/
def GetTemplater {Tmpl Ctx ε : Type} (E : Engine Tmpl Ctx ε)
    (g : GitHubNotification) (name : String) :
    Except ε (Notification → Ctx → Notification × Option ε) :=
  match E.parse name (repoURLtemplate g) with
  | .error err => .error err
  | .ok repoURL =>
    match E.parse name (revisionTemplate g) with
    | .error err => .error err
    | .ok revision =>
      match E.parse name g.State with
      | .error err => .error err
      | .ok state =>
        match E.parse name g.Label with
        | .error err => .error err
        | .ok label =>
          match E.parse name g.TargetURL with
          | .error err => .error err
          | .ok targetURL =>
            .ok (templaterRun E repoURL revision state label targetURL)

/-! ### A small concrete engine, for concrete scenarios

Modelled from the spec: the real engine is Go `text/template`, an
external black box (§1); the spec only relies on templates that are
literal text or a single field reference extracting a dotted path from
the context (§4.1, §8). -/

/-- A compiled template of the concrete engine: literal text, or a single
field reference holding a dotted context path. -/
inductive SpecTmpl where
  | lit (s : String)
  | fieldRef (path : String)
deriving DecidableEq

/-- Recognize a field-reference template: two opening braces, a dot, a
non-empty brace-free path, two closing braces; returns the path. -/
def fieldPath? : List Char → Option (List Char)
  | '{' :: '{' :: '.' :: rest =>
    let p := rest.take (rest.length - 2)
    if rest.drop (rest.length - 2) == ['}', '}'] && !(p == []) &&
        p.all (fun c => !(c == '{' || c == '}')) then some p
    else none
  | _ => none

/-- Modelled from the spec: parsing in the concrete engine.  A
field-reference form compiles to `fieldRef`; text free of braces compiles
to a literal; anything else containing an opening brace is a syntax
error.  As in `text/template`, the error mentions the template *name*
(the same for all five fields), not the field. -/
def specParseTemplate (name text : String) : Except String SpecTmpl :=
  match fieldPath? text.data with
  | some p => .ok (.fieldRef (String.mk p))
  | none =>
    if text.data.any (fun c => c == '{') then
      .error ("template: " ++ name ++ ": syntax error")
    else .ok (.lit text)

/-- Look a dotted path up in a variable context. -/
def ctxLookup (key : String) : List (String × String) → Option String
  | [] => none
  | (k, v) :: rest => if k = key then some v else ctxLookup key rest

/-- Modelled from the spec: execution in the concrete engine.  A literal
yields its text; a field reference yields the value of its path in the
context, and an execution error when the path is absent (§7,
ExecutionError). -/
def specExecTemplate (t : SpecTmpl) (ctx : List (String × String)) :
    Except String String :=
  match t with
  | .lit s => .ok s
  | .fieldRef p =>
    match ctxLookup p ctx with
    | some v => .ok v
    | none => .error ("map has no entry for key " ++ p)

/-- The concrete engine instance. -/
def specEngine : Engine SpecTmpl (List (String × String)) String :=
  ⟨specParseTemplate, specExecTemplate⟩

/-- The notification `n` with its GitHub payload replaced by `gh`
(abbreviation used to state properties of the executor). -/
def withPayload (n : Notification) (gh : GitHubNotification) : Notification :=
  { n with GitHub := some gh }

/-- C3: the executor returned by `GetTemplater` evaluates the five
templates in the fixed order repoURL, revision, state, label, targetURL;
if the i-th execution fails it returns that error immediately without
executing later templates (the result does not depend on the later
templates), and every payload field written before the failure remains
set to its newly written value (shown by the explicit record updates in
each conclusion). -/
theorem templater_exec_order_abort_persist
    {Tmpl Ctx ε : Type} (E : Engine Tmpl Ctx ε) (g : GitHubNotification)
    (name : String) (t1 t2 t3 t4 t5 : Tmpl)
    (h1 : E.parse name (repoURLtemplate g) = .ok t1)
    (h2 : E.parse name (revisionTemplate g) = .ok t2)
    (h3 : E.parse name g.State = .ok t3)
    (h4 : E.parse name g.Label = .ok t4)
    (h5 : E.parse name g.TargetURL = .ok t5)
    (n : Notification) (vars : Ctx) :
    GetTemplater E g name = .ok (templaterRun E t1 t2 t3 t4 t5) ∧
    (∀ e, E.exec t1 vars = .error e →
      templaterRun E t1 t2 t3 t4 t5 n vars = (withPayload n (payloadOf n), some e) ∧
      ∀ s2 s3 s4 s5, templaterRun E t1 s2 s3 s4 s5 n vars
        = (withPayload n (payloadOf n), some e)) ∧
    (∀ r1 e, E.exec t1 vars = .ok r1 → E.exec t2 vars = .error e →
      templaterRun E t1 t2 t3 t4 t5 n vars
        = (withPayload n { payloadOf n with RepoURL := r1 }, some e) ∧
      ∀ s3 s4 s5, templaterRun E t1 t2 s3 s4 s5 n vars
        = (withPayload n { payloadOf n with RepoURL := r1 }, some e)) ∧
    (∀ r1 r2 e, E.exec t1 vars = .ok r1 → E.exec t2 vars = .ok r2 →
      E.exec t3 vars = .error e →
      templaterRun E t1 t2 t3 t4 t5 n vars
        = (withPayload n { payloadOf n with RepoURL := r1, Revision := r2 }, some e) ∧
      ∀ s4 s5, templaterRun E t1 t2 t3 s4 s5 n vars
        = (withPayload n { payloadOf n with RepoURL := r1, Revision := r2 }, some e)) ∧
    (∀ r1 r2 r3 e, E.exec t1 vars = .ok r1 → E.exec t2 vars = .ok r2 →
      E.exec t3 vars = .ok r3 → E.exec t4 vars = .error e →
      templaterRun E t1 t2 t3 t4 t5 n vars
        = (withPayload n { payloadOf n with RepoURL := r1, Revision := r2, State := r3 }, some e) ∧
      ∀ s5, templaterRun E t1 t2 t3 t4 s5 n vars
        = (withPayload n { payloadOf n with RepoURL := r1, Revision := r2, State := r3 }, some e)) ∧
    (∀ r1 r2 r3 r4 e, E.exec t1 vars = .ok r1 → E.exec t2 vars = .ok r2 →
      E.exec t3 vars = .ok r3 → E.exec t4 vars = .ok r4 →
      E.exec t5 vars = .error e →
      templaterRun E t1 t2 t3 t4 t5 n vars
        = (withPayload n { payloadOf n with RepoURL := r1, Revision := r2, State := r3, Label := r4 }, some e)) ∧
    (∀ r1 r2 r3 r4 r5, E.exec t1 vars = .ok r1 → E.exec t2 vars = .ok r2 →
      E.exec t3 vars = .ok r3 → E.exec t4 vars = .ok r4 →
      E.exec t5 vars = .ok r5 →
      templaterRun E t1 t2 t3 t4 t5 n vars
        = (withPayload n { payloadOf n with RepoURL := r1, Revision := r2, State := r3, Label := r4, TargetURL := r5 }, none)) := by
  refine ⟨?_, ?_, ?_, ?_, ?_, ?_, ?_⟩
  · simp [GetTemplater, h1, h2, h3, h4, h5]
  · intro e he
    constructor
    · unfold templaterRun withPayload
      rw [he]
    · intro s2 s3 s4 s5
      unfold templaterRun withPayload
      rw [he]
  · intro r1 e he1 he2
    constructor
    · unfold templaterRun withPayload
      rw [he1, he2]
    · intro s3 s4 s5
      unfold templaterRun withPayload
      rw [he1, he2]
  · intro r1 r2 e he1 he2 he3
    constructor
    · unfold templaterRun withPayload
      rw [he1, he2, he3]
    · intro s4 s5
      unfold templaterRun withPayload
      rw [he1, he2, he3]
  · intro r1 r2 r3 e he1 he2 he3 he4
    constructor
    · unfold templaterRun withPayload
      rw [he1, he2, he3, he4]
    · intro s5
      unfold templaterRun withPayload
      rw [he1, he2, he3, he4]
  · intro r1 r2 r3 r4 e he1 he2 he3 he4 he5
    unfold templaterRun withPayload
    rw [he1, he2, he3, he4, he5]
  · intro r1 r2 r3 r4 r5 he1 he2 he3 he4 he5
    unfold templaterRun withPayload
    rw [he1, he2, he3, he4, he5]

/-- Witness for C3 at the concrete engine: templates whose third (state)
execution fails — the run aborts with that error, the repoURL and
revision fields keep their newly written values, the state, label and
targetURL fields keep their old values, and replacing the later templates
does not change the outcome. -/
theorem templater_exec_order_abort_persist_witness :
    GetTemplater specEngine ⟨"\x7b\x7b.missing\x7d\x7d", "old-l", "old-t", "r", "v"⟩ "n"
      = .ok (templaterRun specEngine (.lit "r") (.lit "v")
          (.fieldRef "missing") (.lit "old-l") (.lit "old-t")) ∧
    templaterRun specEngine (.lit "r") (.lit "v") (.fieldRef "missing")
      (.lit "old-l") (.lit "old-t")
      ⟨"m", some ⟨"s0", "l0", "t0", "r0", "v0"⟩⟩ []
      = (⟨"m", some ⟨"s0", "l0", "t0", "r", "v"⟩⟩,
          some "map has no entry for key missing") ∧
    templaterRun specEngine (.lit "r") (.lit "v") (.fieldRef "missing")
      (.lit "other-l") (.lit "other-t")
      ⟨"m", some ⟨"s0", "l0", "t0", "r0", "v0"⟩⟩ []
      = (⟨"m", some ⟨"s0", "l0", "t0", "r", "v"⟩⟩,
          some "map has no entry for key missing") := by
  have h := templater_exec_order_abort_persist specEngine
    ⟨"\x7b\x7b.missing\x7d\x7d", "old-l", "old-t", "r", "v"⟩ "n"
    (.lit "r") (.lit "v") (.fieldRef "missing") (.lit "old-l") (.lit "old-t")
    rfl rfl rfl rfl rfl
    ⟨"m", some ⟨"s0", "l0", "t0", "r0", "v0"⟩⟩ []
  have h3 := h.2.2.2.1 "r" "v" "map has no entry for key missing" rfl rfl rfl
  exact ⟨h.1, h3.1, h3.2 (.lit "other-l") (.lit "other-t")⟩

/-- C10: when the notification already carries a GitHub payload, the
executor reuses it without clearing any field first (so a failure at
field i leaves every later field with exactly the value it held before
the call — shown by the record updates on the old payload `gh`), and the
five payload fields are the only state the executor writes (the message
is unchanged and the result is `n` with only its payload replaced, in
every outcome). -/
theorem templater_reuses_payload_frame
    {Tmpl Ctx ε : Type} (E : Engine Tmpl Ctx ε) (t1 t2 t3 t4 t5 : Tmpl)
    (n : Notification) (gh : GitHubNotification) (vars : Ctx)
    (hgh : n.GitHub = some gh) :
    payloadOf n = gh ∧
    (∀ e, E.exec t1 vars = .error e →
      templaterRun E t1 t2 t3 t4 t5 n vars = (withPayload n gh, some e)) ∧
    (∀ r1 e, E.exec t1 vars = .ok r1 → E.exec t2 vars = .error e →
      templaterRun E t1 t2 t3 t4 t5 n vars
        = (withPayload n { gh with RepoURL := r1 }, some e)) ∧
    (∀ r1 r2 e, E.exec t1 vars = .ok r1 → E.exec t2 vars = .ok r2 →
      E.exec t3 vars = .error e →
      templaterRun E t1 t2 t3 t4 t5 n vars
        = (withPayload n { gh with RepoURL := r1, Revision := r2 }, some e)) ∧
    (∀ r1 r2 r3 e, E.exec t1 vars = .ok r1 → E.exec t2 vars = .ok r2 →
      E.exec t3 vars = .ok r3 → E.exec t4 vars = .error e →
      templaterRun E t1 t2 t3 t4 t5 n vars
        = (withPayload n { gh with RepoURL := r1, Revision := r2, State := r3 }, some e)) ∧
    (∀ r1 r2 r3 r4 e, E.exec t1 vars = .ok r1 → E.exec t2 vars = .ok r2 →
      E.exec t3 vars = .ok r3 → E.exec t4 vars = .ok r4 →
      E.exec t5 vars = .error e →
      templaterRun E t1 t2 t3 t4 t5 n vars
        = (withPayload n { gh with RepoURL := r1, Revision := r2, State := r3, Label := r4 }, some e)) ∧
    ((templaterRun E t1 t2 t3 t4 t5 n vars).1.Message = n.Message ∧
      ∃ gh2, (templaterRun E t1 t2 t3 t4 t5 n vars).1 = withPayload n gh2) := by
  have hp : payloadOf n = gh := by simp [payloadOf, hgh]
  refine ⟨hp, ?_, ?_, ?_, ?_, ?_, ?_⟩
  · intro e he
    unfold templaterRun withPayload
    rw [hp, he]
  · intro r1 e he1 he2
    unfold templaterRun withPayload
    rw [hp, he1, he2]
  · intro r1 r2 e he1 he2 he3
    unfold templaterRun withPayload
    rw [hp, he1, he2, he3]
  · intro r1 r2 r3 e he1 he2 he3 he4
    unfold templaterRun withPayload
    rw [hp, he1, he2, he3, he4]
  · intro r1 r2 r3 r4 e he1 he2 he3 he4 he5
    unfold templaterRun withPayload
    rw [hp, he1, he2, he3, he4, he5]
  · unfold templaterRun withPayload
    cases hE1 : E.exec t1 vars with
    | error e => exact ⟨rfl, _, rfl⟩
    | ok r1 =>
      cases hE2 : E.exec t2 vars with
      | error e => exact ⟨rfl, _, rfl⟩
      | ok r2 =>
        cases hE3 : E.exec t3 vars with
        | error e => exact ⟨rfl, _, rfl⟩
        | ok r3 =>
          cases hE4 : E.exec t4 vars with
          | error e => exact ⟨rfl, _, rfl⟩
          | ok r4 =>
            cases hE5 : E.exec t5 vars with
            | error e => exact ⟨rfl, _, rfl⟩
            | ok r5 => exact ⟨rfl, _, rfl⟩

/-- Witness for C10 at the concrete engine: the notification already
carries a payload; execution fails at the second (revision) template, the
repoURL field holds its newly written value, and the state, label and
targetURL fields hold exactly their values from before the call; the
message is untouched. -/
theorem templater_reuses_payload_frame_witness :
    payloadOf ⟨"m", some ⟨"s0", "l0", "t0", "r0", "v0"⟩⟩ = ⟨"s0", "l0", "t0", "r0", "v0"⟩ ∧
    templaterRun specEngine (.lit "newRepo") (.fieldRef "missing")
      (.lit "s1") (.lit "l1") (.lit "t1")
      ⟨"m", some ⟨"s0", "l0", "t0", "r0", "v0"⟩⟩ []
      = (⟨"m", some ⟨"s0", "l0", "t0", "newRepo", "v0"⟩⟩,
          some "map has no entry for key missing") ∧
    (templaterRun specEngine (.lit "newRepo") (.fieldRef "missing")
      (.lit "s1") (.lit "l1") (.lit "t1")
      ⟨"m", some ⟨"s0", "l0", "t0", "r0", "v0"⟩⟩ []).1.Message = "m" := by
  have h := templater_reuses_payload_frame specEngine (SpecTmpl.lit "newRepo")
    (.fieldRef "missing") (.lit "s1") (.lit "l1") (.lit "t1")
    ⟨"m", some ⟨"s0", "l0", "t0", "r0", "v0"⟩⟩ ⟨"s0", "l0", "t0", "r0", "v0"⟩ [] rfl
  exact ⟨h.1, h.2.2.1 "newRepo" "map has no entry for key missing" rfl rfl,
    h.2.2.2.2.2.2.1⟩

/-- C6: when `config.RepoURL` is empty, `GetTemplater` compiles the
default template extracting `app.spec.source.repoURL`; when
`config.Revision` is empty it compiles the default extracting
`app.status.operationState.syncResult.revision`; non-empty config strings
are used verbatim instead of the defaults.  For the concrete scenario, a
config with empty `RepoURL` executed against a context where
`app.spec.source.repoURL` is `https://x/y/z.git` yields a payload whose
`RepoURL` is `https://x/y/z.git`. -/
theorem getTemplater_default_templates :
    (∀ g : GitHubNotification, g.RepoURL = "" →
      repoURLtemplate g = defaultRepoURLtemplate) ∧
    (∀ g : GitHubNotification, g.Revision = "" →
      revisionTemplate g = defaultRevisionTemplate) ∧
    (∀ g : GitHubNotification, g.RepoURL ≠ "" → repoURLtemplate g = g.RepoURL) ∧
    (∀ g : GitHubNotification, g.Revision ≠ "" → revisionTemplate g = g.Revision) ∧
    GetTemplater specEngine ⟨"good", "ci", "http://x", "", ""⟩ "n"
      = .ok (templaterRun specEngine (.fieldRef "app.spec.source.repoURL")
          (.fieldRef "app.status.operationState.syncResult.revision")
          (.lit "good") (.lit "ci") (.lit "http://x")) ∧
    templaterRun specEngine (.fieldRef "app.spec.source.repoURL")
      (.fieldRef "app.status.operationState.syncResult.revision")
      (.lit "good") (.lit "ci") (.lit "http://x")
      ⟨"m", none⟩
      [("app.spec.source.repoURL", "https://x/y/z.git"),
        ("app.status.operationState.syncResult.revision", "abc123")]
      = (⟨"m", some ⟨"good", "ci", "http://x", "https://x/y/z.git", "abc123"⟩⟩,
          none) := by
  refine ⟨?_, ?_, ?_, ?_, rfl, rfl⟩
  · intro g hg
    simp [repoURLtemplate, hg]
  · intro g hg
    simp [revisionTemplate, hg]
  · intro g hg
    simp [repoURLtemplate, hg]
  · intro g hg
    simp [revisionTemplate, hg]

/-- Witness for C6: the implications discharged at concrete configs (an
empty `RepoURL`/`Revision` selects the default template; non-empty config
strings are used verbatim), together with the concrete scenario. -/
theorem getTemplater_default_templates_witness :
    repoURLtemplate ⟨"s", "l", "t", "", "v"⟩ = defaultRepoURLtemplate ∧
    revisionTemplate ⟨"s", "l", "t", "u", ""⟩ = defaultRevisionTemplate ∧
    repoURLtemplate ⟨"s", "l", "t", "myRepo", "v"⟩ = "myRepo" ∧
    revisionTemplate ⟨"s", "l", "t", "u", "myRev"⟩ = "myRev" ∧
    templaterRun specEngine (.fieldRef "app.spec.source.repoURL")
      (.fieldRef "app.status.operationState.syncResult.revision")
      (.lit "good") (.lit "ci") (.lit "http://x")
      ⟨"m", none⟩
      [("app.spec.source.repoURL", "https://x/y/z.git"),
        ("app.status.operationState.syncResult.revision", "abc123")]
      = (⟨"m", some ⟨"good", "ci", "http://x", "https://x/y/z.git", "abc123"⟩⟩,
          none) := by
  obtain ⟨h1, h2, h3, h4, _, h6⟩ := getTemplater_default_templates
  exact ⟨h1 _ rfl, h2 _ rfl, h3 _ (by decide), h4 _ (by decide), h6⟩

/-- C7 counterexample: the claim says the returned compile error
identifies which of the five fields failed.  It does not: all five
templates are parsed under the same notification name and the parse error
is returned verbatim, so two configs failing at *different* fields
produce the *identical* error.  Here the first config fails at the state
field (its repoURL and revision templates parse fine, its state template
is the unterminated text containing two opening braces), the second
config's state parses fine and its label fails — yet `GetTemplater`
returns the same error for both, so no function of the returned error can
name the offending field. -/
theorem compile_error_does_not_identify_field :
    GetTemplater specEngine ⟨"\x7b\x7b", "", "", "r", "v"⟩ "n"
      = .error "template: n: syntax error" ∧
    GetTemplater specEngine ⟨"", "\x7b\x7b", "", "r", "v"⟩ "n"
      = .error "template: n: syntax error" ∧
    specEngine.parse "n" "r" = .ok (.lit "r") ∧
    specEngine.parse "n" "v" = .ok (.lit "v") ∧
    specEngine.parse "n" "\x7b\x7b" = .error "template: n: syntax error" ∧
    specEngine.parse "n" "" = .ok (.lit "") :=
  ⟨rfl, rfl, rfl, rfl, rfl, rfl⟩

/-- C7 amended: `GetTemplater` compiles the five field templates in the
order repoURL, revision, state, label, targetURL; the first field whose
template fails to parse short-circuits compilation (no executor is
returned, and the templates of the later fields are irrelevant to the
result), and the returned error is the underlying parse error, which
reports the syntax problem but does not itself name which of the five
fields failed. -/
theorem getTemplater_compile_short_circuit
    {Tmpl Ctx ε : Type} (E : Engine Tmpl Ctx ε) (g : GitHubNotification)
    (name : String) :
    (∀ e, E.parse name (repoURLtemplate g) = .error e →
      GetTemplater E g name = .error e ∧
      ∀ rev st lb tu,
        GetTemplater E { g with Revision := rev, State := st, Label := lb, TargetURL := tu } name = .error e) ∧
    (∀ t1 e, E.parse name (repoURLtemplate g) = .ok t1 →
      E.parse name (revisionTemplate g) = .error e →
      GetTemplater E g name = .error e ∧
      ∀ st lb tu,
        GetTemplater E { g with State := st, Label := lb, TargetURL := tu } name = .error e) ∧
    (∀ t1 t2 e, E.parse name (repoURLtemplate g) = .ok t1 →
      E.parse name (revisionTemplate g) = .ok t2 →
      E.parse name g.State = .error e →
      GetTemplater E g name = .error e ∧
      ∀ lb tu, GetTemplater E { g with Label := lb, TargetURL := tu } name = .error e) ∧
    (∀ t1 t2 t3 e, E.parse name (repoURLtemplate g) = .ok t1 →
      E.parse name (revisionTemplate g) = .ok t2 →
      E.parse name g.State = .ok t3 →
      E.parse name g.Label = .error e →
      GetTemplater E g name = .error e ∧
      ∀ tu, GetTemplater E { g with TargetURL := tu } name = .error e) ∧
    (∀ t1 t2 t3 t4 e, E.parse name (repoURLtemplate g) = .ok t1 →
      E.parse name (revisionTemplate g) = .ok t2 →
      E.parse name g.State = .ok t3 →
      E.parse name g.Label = .ok t4 →
      E.parse name g.TargetURL = .error e →
      GetTemplater E g name = .error e) := by
  refine ⟨?_, ?_, ?_, ?_, ?_⟩
  · intro e h1
    exact ⟨by simp [GetTemplater, h1],
      fun rev st lb tu => by simp [GetTemplater, repoURLtemplate, revisionTemplate] at h1 ⊢; simp [h1]⟩
  · intro t1 e h1 h2
    exact ⟨by simp [GetTemplater, h1, h2],
      fun st lb tu => by
        simp [GetTemplater, repoURLtemplate, revisionTemplate] at h1 h2 ⊢; simp [h1, h2]⟩
  · intro t1 t2 e h1 h2 h3
    exact ⟨by simp [GetTemplater, h1, h2, h3],
      fun lb tu => by
        simp [GetTemplater, repoURLtemplate, revisionTemplate] at h1 h2 ⊢; simp [h1, h2, h3]⟩
  · intro t1 t2 t3 e h1 h2 h3 h4
    exact ⟨by simp [GetTemplater, h1, h2, h3, h4],
      fun tu => by
        simp [GetTemplater, repoURLtemplate, revisionTemplate] at h1 h2 ⊢; simp [h1, h2, h3, h4]⟩
  · intro t1 t2 t3 t4 e h1 h2 h3 h4 h5
    simp [GetTemplater, h1, h2, h3, h4, h5]

/-- Witness for C7's amended claim: at the concrete engine, a config
whose state template is unterminated short-circuits compilation with the
underlying syntax error, and replacing the label and targetURL templates
does not change the outcome. -/
theorem getTemplater_compile_short_circuit_witness :
    GetTemplater specEngine ⟨"\x7b\x7b", "", "", "r", "v"⟩ "n2"
      = .error "template: n2: syntax error" ∧
    GetTemplater specEngine ⟨"\x7b\x7b", "zz", "ww", "r", "v"⟩ "n2"
      = .error "template: n2: syntax error" := by
  have h := (getTemplater_compile_short_circuit specEngine
    ⟨"\x7b\x7b", "", "", "r", "v"⟩ "n2").2.2.1
    (.lit "r") (.lit "v") "template: n2: syntax error" rfl rfl rfl
  exact ⟨h.1, h.2 "zz" "ww"⟩

/-- C9: empty template strings for the State, Label and TargetURL fields
are accepted: no default is substituted for them (the templates compiled
for these three fields come from parsing the empty string itself, the
hypothesis `hempty`, unlike RepoURL and Revision), `GetTemplater`
compiles successfully whenever the engine parses the empty template, and
executing the resulting templater writes the empty string into the
corresponding payload fields. -/
theorem getTemplater_empty_state_label_target
    {Tmpl Ctx ε : Type} (E : Engine Tmpl Ctx ε) (name r v : String)
    (tr tv te : Tmpl)
    (hrne : r ≠ "") (hvne : v ≠ "")
    (hr : E.parse name r = .ok tr) (hv : E.parse name v = .ok tv)
    (hempty : E.parse name "" = .ok te) :
    GetTemplater E ⟨"", "", "", r, v⟩ name
      = .ok (templaterRun E tr tv te te te) ∧
    ∀ (n : Notification) (vars : Ctx) (a b : String),
      E.exec tr vars = .ok a → E.exec tv vars = .ok b →
      E.exec te vars = .ok "" →
      templaterRun E tr tv te te te n vars
        = (withPayload n ⟨"", "", "", a, b⟩, none) := by
  constructor
  · simp [GetTemplater, repoURLtemplate, revisionTemplate, hrne, hvne, hr, hv,
      hempty]
  · intro n vars a b ha hb he
    unfold templaterRun withPayload
    rw [ha, hb, he]

/-- Witness for C9 at the concrete engine: a config whose State, Label
and TargetURL are all empty compiles, and executing the templater leaves
those three payload fields as the empty string. -/
theorem getTemplater_empty_state_label_target_witness :
    GetTemplater specEngine ⟨"", "", "", "x", "y"⟩ "n"
      = .ok (templaterRun specEngine (.lit "x") (.lit "y") (.lit "")
          (.lit "") (.lit "")) ∧
    templaterRun specEngine (.lit "x") (.lit "y") (.lit "") (.lit "") (.lit "")
      ⟨"m", none⟩ []
      = (⟨"m", some ⟨"", "", "", "x", "y"⟩⟩, none) := by
  have h := getTemplater_empty_state_label_target specEngine "n" "x" "y"
    (.lit "x") (.lit "y") (.lit "") (by decide) (by decide) rfl rfl rfl
  exact ⟨h.1, h.2 ⟨"m", none⟩ [] "x" "y" rfl rfl rfl⟩

end NotificationsEngine
